import Mathlib

/-!
Verification of the EASYDRIVE-V2 quoting/order-intake pipeline
(src/components/FileUploadSection.tsx) against its specification.

The TypeScript source is shallowly embedded: JS runtime values are the
`Json` inductive, JS numbers are `ℚ` (finite values; `none` of an
`Option ℚ` stands for NaN/±Infinity where non-finite results matter),
network interactions are parametrised by an explicit outcome value, and
functions that can let an exception escape return a `JsOutcome`.
-/

namespace EasyDrive

/-- JS runtime values as produced by `JSON.parse` / object literals.
`undefined` is represented by `Option Json = none` at the access sites
(property lookup on a missing key), matching how the source only ever
meets `undefined` through lookups and optional chaining. -/
inductive Json where
  | null
  | bool (b : Bool)
  | num (q : ℚ)
  | str (s : String)
  | obj (fields : List (String × Json))
  | arr (elems : List Json)

/-- JS whitespace for `String.prototype.trim` / `Number(string)`:
the ASCII whitespace characters plus NBSP (the characters that can occur
in this code base; further Unicode space classes are not modelled). -/
def isJsWs (c : Char) : Bool :=
  c = ' ' || c = '\t' || c = '\n' || c = '\r' || c = '\x0b' || c = '\x0c' || c = ' '

/-- JS `String.prototype.trim`. -/
def jsTrim (s : String) : String :=
  String.mk (((s.data.dropWhile isJsWs).reverse.dropWhile isJsWs).reverse)

/-- Case folding used for `/i` regex matching and `toLowerCase`:
ASCII letters plus the accented letters that occur in the price table's
patterns (`É`, `È`). -/
def lowerChar (c : Char) : Char :=
  if c = 'È' then 'è' else if c = 'É' then 'é' else c.toLower

/-- JS `String.prototype.toLowerCase`, restricted as in `lowerChar`. -/
def lowerStr (s : String) : String :=
  String.mk (s.data.map lowerChar)

/-- `pat` matches at the start of `s` (exact characters). -/
def begMatch : List Char → List Char → Bool
  | [], _ => true
  | _ :: _, [] => false
  | p :: ps, c :: cs => p = c && begMatch ps cs

/-- `pat` occurs somewhere in `s` (JS `String.prototype.includes`). -/
def hasSub (pat : List Char) : List Char → Bool
  | [] => begMatch pat []
  | c :: cs => begMatch pat (c :: cs) || hasSub pat cs

/-- JS `\w` word characters: `[A-Za-z0-9_]` (ASCII only; accented letters
such as `è` are word-boundary characters, exactly as in JS regexes without
the unicode flag). -/
def isWordChar (c : Char) : Bool :=
  (c.isAlpha || c.isDigit) || c = '_'

/-- Tokens of the (tiny) regex fragment used by the city price table:
case-insensitive literals, a two-way character alternative, `\s*`, and
`[-\s]*`. -/
inductive Tok where
  | lit (c : Char)
  | alt (a b : Char)
  | wsStar
  | wsHyphenStar
  deriving DecidableEq, Repr

/-- Match a token list at the head of the input, returning the rest of the
input on success.  The starred classes are consumed greedily, which is
exact here because in every table pattern the token after a star is a
literal outside the starred class. -/
def matchToks : List Tok → List Char → Option (List Char)
  | [], cs => some cs
  | Tok.wsStar :: ts, cs => matchToks ts (cs.dropWhile isJsWs)
  | Tok.wsHyphenStar :: ts, cs =>
      matchToks ts (cs.dropWhile (fun c => isJsWs c || c = '-'))
  | Tok.lit c :: ts, x :: xs =>
      if lowerChar x = lowerChar c then matchToks ts xs else none
  | Tok.alt a b :: ts, x :: xs =>
      if lowerChar x = lowerChar a || lowerChar x = lowerChar b then matchToks ts xs else none
  | Tok.lit _ :: _, [] => none
  | Tok.alt _ _ :: _, [] => none

/-- The pattern matches at this position and both ends sit on `\b` word
boundaries (`prev` is the character before the position, if any). -/
def testAt (toks : List Tok) (prev : Option Char) (cs : List Char) : Bool :=
  (match prev with
    | none => true
    | some p => !isWordChar p) &&
  (match matchToks toks cs with
    | some [] => true
    | some (r :: _) => !isWordChar r
    | none => false)

/-- Scan every position of the input for a word-bounded match. -/
def scanWB (toks : List Tok) : Option Char → List Char → Bool
  | prev, [] => testAt toks prev []
  | prev, c :: cs => testAt toks prev (c :: cs) || scanWB toks (some c) cs

/-- JS `/\b…\b/i.test(s)` for the pattern fragment `Tok` covers. -/
def reTest (toks : List Tok) (s : String) : Bool :=
  scanWB toks none s.data

/-- Plain-word pattern: every character a case-insensitive literal. -/
def litToks (s : String) : List Tok :=
  s.data.map Tok.lit

/-! ### JS object access and coercions -/

/-- First binding of a key in a JS object's field list (JS objects have
unique keys, so first = only). `none` is JS `undefined`. -/
def lookupField : List (String × Json) → String → Option Json
  | [], _ => none
  | (k', v) :: rest, k => if k' = k then some v else lookupField rest k

/-- Property access `j.k` / `j?.k` on an arbitrary value: a named key of a
non-object (including an array's non-index properties, which this code
never uses) reads as `undefined`. -/
def getKey (j : Json) (k : String) : Option Json :=
  match j with
  | Json.obj fs => lookupField fs k
  | _ => none

/-- Optional-chained access `o?.k` where `o` may be `undefined`/`null`. -/
def oget (o : Option Json) (k : String) : Option Json :=
  match o with
  | some j => getKey j k
  | none => none

/-- `a ?? b` for possibly-`undefined` values (skips `undefined` and `null`). -/
def jsCoalesce (a b : Option Json) : Option Json :=
  match a with
  | none => b
  | some Json.null => b
  | some j => some j

/-- `v ?? ''` materialised as a value (for `String(x ?? '')` call sites). -/
def jsDefault (v : Option Json) : Json :=
  match v with
  | none => Json.str ""
  | some Json.null => Json.str ""
  | some j => j

/-- Source helper `readString`: `typeof value === 'string' ? value : ''`
applied to a possibly-`undefined` value. -/
def readString (v : Option Json) : String :=
  match v with
  | some (Json.str s) => s
  | _ => ""

/-- Source helper `pickFirstString`: first candidate whose trimmed string
reading is non-empty, returned trimmed. -/
def pickFirstString : List (Option Json) → String
  | [] => ""
  | v :: rest =>
      let s := jsTrim (readString v)
      if s ≠ "" then s else pickFirstString rest

/-- `typeof x === 'string' ? x : ''` materialised as a value. -/
def strIfString (v : Option Json) : Option Json :=
  match v with
  | some (Json.str s) => some (Json.str s)
  | _ => some (Json.str "")

/-- `isRecord(x) ? x : null` for a property value: the source's `isRecord`
is `typeof value === 'object' && value !== null`, so objects and arrays
pass and everything else (including `null`) collapses to `null` (`none`). -/
def recOf (j : Json) (k : String) : Option Json :=
  match getKey j k with
  | some (Json.obj fs) => some (Json.obj fs)
  | some (Json.arr es) => some (Json.arr es)
  | _ => none

/-- Digit-string value. -/
def digitsToNat (ds : List Char) : ℕ :=
  ds.foldl (fun acc c => acc * 10 + (c.toNat - '0'.toNat)) 0

/-- Multiply by a signed power of ten (for the exponent of a numeric
literal). -/
def mulPow10 (q : ℚ) (e : ℤ) : ℚ :=
  if 0 ≤ e then q * (10 : ℚ) ^ e.toNat else q / (10 : ℚ) ^ (-e).toNat

/-- Magnitude of a JS decimal literal: digits, optional fraction, optional
exponent; the whole input must be consumed.  `none` is NaN. -/
def parseMag (cs : List Char) : Option ℚ :=
  let intPart := cs.takeWhile Char.isDigit
  let r1 := cs.dropWhile Char.isDigit
  let hasDot := match r1 with
    | '.' :: _ => true
    | _ => false
  let fracSrc := match r1 with
    | '.' :: rr => rr
    | _ => r1
  let fracPart := if hasDot then fracSrc.takeWhile Char.isDigit else []
  let r2 := if hasDot then fracSrc.dropWhile Char.isDigit else r1
  if intPart.isEmpty && fracPart.isEmpty then none
  else
    let mantissa : ℚ :=
      (digitsToNat intPart : ℚ) + (digitsToNat fracPart : ℚ) / (10 : ℚ) ^ fracPart.length
    match r2 with
    | [] => some mantissa
    | 'e' :: rr =>
        (match rr with
          | '+' :: ds => if ds ≠ [] && ds.all Char.isDigit then some (mulPow10 mantissa (digitsToNat ds)) else none
          | '-' :: ds => if ds ≠ [] && ds.all Char.isDigit then some (mulPow10 mantissa (-(digitsToNat ds : ℤ))) else none
          | ds => if ds ≠ [] && ds.all Char.isDigit then some (mulPow10 mantissa (digitsToNat ds)) else none)
    | 'E' :: rr =>
        (match rr with
          | '+' :: ds => if ds ≠ [] && ds.all Char.isDigit then some (mulPow10 mantissa (digitsToNat ds)) else none
          | '-' :: ds => if ds ≠ [] && ds.all Char.isDigit then some (mulPow10 mantissa (-(digitsToNat ds : ℤ))) else none
          | ds => if ds ≠ [] && ds.all Char.isDigit then some (mulPow10 mantissa (digitsToNat ds)) else none)
    | _ => none

/-- JS `Number(string)`: trimmed-empty is `0`; otherwise an optionally
signed decimal literal.  `none` stands for a non-finite result, so
`Infinity` and the non-decimal radix literals (hex/octal/binary, which
this code base never feeds in) are conservatively `none`. -/
def parseJsNumber (s : String) : Option ℚ :=
  let cs := (jsTrim s).data
  match cs with
  | [] => some 0
  | '+' :: rest => parseMag rest
  | '-' :: rest => (parseMag rest).map Neg.neg
  | _ => parseMag cs

/-- JS `Number(x)` for a runtime value.  `none` is NaN.  Coercion of a
one-element array (`Number([x])`, unused by this code base) is modelled
as NaN. -/
def jsNumberCoerce : Json → Option ℚ
  | Json.null => some 0
  | Json.bool b => some (if b then 1 else 0)
  | Json.num q => some q
  | Json.str s => parseJsNumber s
  | Json.obj _ => none
  | Json.arr [] => some 0
  | Json.arr (_ :: _) => none

/-- `Number(v)` for a possibly-`undefined` value (`Number(undefined)` is
NaN); also the source helper `readNumber`, whose `typeof` shortcut agrees
with plain coercion on numbers. -/
def readNumber (v : Option Json) : Option ℚ :=
  match v with
  | none => none
  | some j => jsNumberCoerce j

/-- JS number-to-string.  Exact for integral values — the only values the
claims below ever stringify; a non-integral rational is rendered as
`num/den`, which diverges from JS float formatting and is never relied
upon. -/
def numToString (q : ℚ) : String :=
  if q.den = 1 then toString q.num else toString q.num ++ "/" ++ toString q.den

/-- JS `String(x)`.  Array rendering joins elements (with `null` as the
empty string, as JS `Array.prototype.join` does). -/
def jsToString : Json → String
  | Json.null => "null"
  | Json.bool b => if b then "true" else "false"
  | Json.num q => numToString q
  | Json.str s => s
  | Json.obj _ => "[object Object]"
  | Json.arr [] => ""
  | Json.arr [Json.null] => ""
  | Json.arr [e] => jsToString e
  | Json.arr (Json.null :: e2 :: es) => "," ++ jsToString (Json.arr (e2 :: es))
  | Json.arr (e :: e2 :: es) => jsToString e ++ "," ++ jsToString (Json.arr (e2 :: es))

/-! ### The official city price table (`OFFICIAL_CITY_TOTAL_PRICES`) -/

/-- A row of the fixed-price table: canonical city name, fixed total
price, and the address predicate (the source's `match` field). -/
structure CityPriceRule where
  city : String
  total_price : ℤ
  matchAddr : String → Bool

/-- The static table, in declaration order. -/
def OFFICIAL_CITY_TOTAL_PRICES : List CityPriceRule := [
  { city := "Toronto (Oshawa Region)", total_price := 385,
    matchAddr := fun addr => reTest (litToks "oshawa") addr || reTest (litToks "ajax") addr ||
      reTest (litToks "whitby") addr || reTest (litToks "pickering") addr },
  { city := "Toronto (Downtown / Brampton / Mississauga)", total_price := 435,
    matchAddr := fun addr => reTest (litToks "toronto") addr || reTest (litToks "downtown") addr ||
      reTest (litToks "brampton") addr || reTest (litToks "mississauga") addr },
  { city := "Hamilton", total_price := 535, matchAddr := fun addr => reTest (litToks "hamilton") addr },
  { city := "Niagara Falls", total_price := 585,
    matchAddr := fun addr => reTest (litToks "niagara" ++ [Tok.wsStar] ++ litToks "falls") addr },
  { city := "Windsor", total_price := 635, matchAddr := fun addr => reTest (litToks "windsor") addr },
  { city := "London, Ontario", total_price := 585, matchAddr := fun addr => reTest (litToks "london") addr },
  { city := "Kingston", total_price := 235, matchAddr := fun addr => reTest (litToks "kingston") addr },
  { city := "Belleville", total_price := 285, matchAddr := fun addr => reTest (litToks "belleville") addr },
  { city := "Cornwall", total_price := 205, matchAddr := fun addr => reTest (litToks "cornwall") addr },
  { city := "Peterborough", total_price := 385, matchAddr := fun addr => reTest (litToks "peterborough") addr },
  { city := "Barrie", total_price := 435, matchAddr := fun addr => reTest (litToks "barrie") addr },
  { city := "North Bay", total_price := 435,
    matchAddr := fun addr => reTest (litToks "north" ++ [Tok.wsStar] ++ litToks "bay") addr },
  { city := "Timmins", total_price := 685, matchAddr := fun addr => reTest (litToks "timmins") addr },
  { city := "Montreal (Trois-Rivières Region)", total_price := 335,
    matchAddr := fun addr =>
      reTest (litToks "trois" ++ [Tok.wsHyphenStar] ++ litToks "rivi" ++ [Tok.alt 'e' 'è'] ++ litToks "res") addr ||
      reTest (litToks "trois" ++ [Tok.wsStar] ++ litToks "rivieres") addr },
  { city := "Montreal", total_price := 285,
    matchAddr := fun addr => reTest (litToks "montreal") addr ||
      reTest (litToks "montr" ++ [Tok.alt 'e' 'é'] ++ litToks "al") addr },
  { city := "Quebec City", total_price := 435,
    matchAddr := fun addr =>
      reTest (litToks "qu" ++ [Tok.alt 'e' 'é'] ++ litToks "bec" ++ [Tok.wsStar] ++ litToks "city") addr ||
      reTest (litToks "ville" ++ [Tok.wsStar] ++ litToks "de" ++ [Tok.wsStar] ++
        litToks "qu" ++ [Tok.alt 'e' 'é'] ++ litToks "bec") addr }]

/-- The `for (const item of …) if (item.match(addr)) return {city, total_price}`
loop of `getOfficialCityPriceForAddress`. -/
def findRule : List CityPriceRule → String → Option (String × ℤ)
  | [], _ => none
  | item :: rest, addr =>
      if item.matchAddr addr then some (item.city, item.total_price) else findRule rest addr

/-- Source `getOfficialCityPriceForAddress`: trim, reject empty, then the
first table rule whose predicate matches. -/
def getOfficialCityPriceForAddress (address : String) : Option (String × ℤ) :=
  let addr := jsTrim address
  if addr = "" then none
  else findRule OFFICIAL_CITY_TOTAL_PRICES addr

/-- The `find(item => item.city === area)` loop of
`getOfficialCityPriceForServiceArea`. -/
def findByCity : List CityPriceRule → String → Option (String × ℤ)
  | [], _ => none
  | item :: rest, area =>
      if item.city = area then some (item.city, item.total_price) else findByCity rest area

/-- Source `getOfficialCityPriceForServiceArea`: trim, reject empty, then
exact lookup by canonical city name. -/
def getOfficialCityPriceForServiceArea (serviceArea : String) : Option (String × ℤ) :=
  let area := jsTrim serviceArea
  if area = "" then none
  else findByCity OFFICIAL_CITY_TOTAL_PRICES area

/-! ### Cost estimation (`calculateCostAndDistance`) -/

/-- `Math.round` (half toward `+∞`) on a finite value. -/
def jsRound (q : ℚ) : ℤ := (q + 1/2).floor

/-- The `pricingStatus` tag of a resolved estimate. -/
inductive PricingStatus where
  | official
  | estimated
  deriving DecidableEq, Repr

/-- The `route` payload kept on a provider estimate: the provider's
geometry (`[lng,lat]` coordinate list, when present) and the derived
polyline string. -/
structure RouteInfo where
  geometry : Option (List (ℚ × ℚ))
  polyline : Option String
  deriving DecidableEq, Repr

/-- The source's `CostData`: all optional fields `undefined` (`none`)
unless set. -/
structure CostData where
  distance : ℤ
  cost : ℤ
  duration : Option ℤ := none
  route : Option RouteInfo := none
  pricingCity : Option String := none
  pricingStatus : Option PricingStatus := none
  deriving DecidableEq, Repr

/-- Source `encodePolyline`: provider coordinates arrive as `[lng,lat]`
pairs and are flipped to `lat,lng` text joined with `|`. -/
def encodePolyline (coordinates : List (ℚ × ℚ)) : String :=
  String.intercalate "|" (coordinates.map (fun coord => numToString coord.2 ++ "," ++ numToString coord.1))

/-- The estimate built from a provider route (same code for OSRM and
MapBox): distance and duration rounded, cost `max(distanceKm * 2.50, 150)`
rounded — note the *rounded* distance feeds the cost here. -/
def providerEstimate (distanceMeters durationSeconds : ℚ)
    (geometry : Option (List (ℚ × ℚ))) : CostData :=
  let distanceKm := jsRound (distanceMeters / 1000)
  let durationMin := jsRound (durationSeconds / 60)
  { distance := distanceKm,
    cost := jsRound (max ((distanceKm : ℚ) * (5/2)) 150),
    duration := some durationMin,
    route := some { geometry := geometry, polyline := geometry.map encodePolyline } }

/-- The closed-form fallback of `calculateCostAndDistance`, parametrised
by the great-circle distance `d` (km) that the haversine step computes —
the trigonometric step itself runs on IEEE floats and transcendental
functions, which a shallow embedding cannot execute, so its real-valued
output is taken as the input here.  Duration assumes 60 km/h; cost is
`max(d * 2.50, 150)` rounded — note the *unrounded* distance feeds the
cost, unlike the provider branch. -/
def haversineFallbackFromDistance (d : ℚ) : CostData :=
  { distance := jsRound d,
    cost := jsRound (max (d * (5/2)) 150),
    duration := some (jsRound (d / 60 * 60)),
    route := none }

/-- Outcome of one routing-provider interaction, as distinguished by the
source: the `fetch`/`json()` promise rejected (an exception), the HTTP
response was not ok, the body held no `routes[0]`, or a usable route with
distance (m), duration (s) and optional geometry. -/
inductive RouteFetch where
  | reject
  | notOk
  | noRoute
  | route (distanceMeters durationSeconds : ℚ) (geometry : Option (List (ℚ × ℚ)))
  deriving DecidableEq, Repr

/-- A run of `calculateCostAndDistance`: its returned value plus whether
the secondary (MapBox) provider was consulted at all. -/
structure CalcRun where
  result : Option CostData
  secondaryAttempted : Bool
  deriving DecidableEq, Repr

/-- Source `calculateCostAndDistance`, parametrised by the two provider
outcomes and the haversine distance.  Control flow mirrors the source: the
MapBox attempt lives in the `catch` of the OSRM `try`, so it runs only
when the OSRM interaction *throws*; a non-ok OSRM response or a body
without a usable route falls through to the haversine fallback directly. -/
def calculateCostAndDistance (primary secondary : RouteFetch) (haversineKm : ℚ) : CalcRun :=
  match primary with
  | RouteFetch.route dm ds g => { result := some (providerEstimate dm ds g), secondaryAttempted := false }
  | RouteFetch.reject =>
      (match secondary with
        | RouteFetch.route dm ds g =>
            { result := some (providerEstimate dm ds g), secondaryAttempted := true }
        | _ => { result := some (haversineFallbackFromDistance haversineKm), secondaryAttempted := true })
  | RouteFetch.notOk => { result := some (haversineFallbackFromDistance haversineKm), secondaryAttempted := false }
  | RouteFetch.noRoute => { result := some (haversineFallbackFromDistance haversineKm), secondaryAttempted := false }

/-! ### Geocoding (`geocodeAddress`, `reverseGeocode`) -/

/-- Outcome of one geocode HTTP interaction: the `fetch` promise rejected
(network failure), a non-success response, a success whose body was not
JSON (`res.json()` rejects), or a parsed JSON body. -/
inductive GeoFetch where
  | reject
  | notOk
  | badJson
  | okBody (body : Json)

/-- Result of running a JS async function that has no internal
`try`/`catch`: either a value or a propagated exception. -/
inductive JsOutcome (α : Type) where
  | thrown
  | value (a : α)
  deriving DecidableEq, Repr

/-- `candidates?.[0]`: index 0 of an array, or the named property `"0"` of
a plain object. -/
def idx0 (v : Option Json) : Option Json :=
  match v with
  | some (Json.arr (e :: _)) => some e
  | some (Json.obj fs) => lookupField fs "0"
  | _ => none

/-- Source `geocodeAddress`, parametrised by the HTTP interaction's
outcome (the request URL's query normalisation does not affect the
returned value and is not modelled).  An empty trimmed address returns
`null` without any request; there is no `try`/`catch`, so a rejected
`fetch` or an unparseable body propagates as an exception. -/
def geocodeParse (body : Json) : Option (ℚ × ℚ) :=
  let candidate := idx0 (getKey body "candidates")
  let location := oget candidate "location"
  let lat := readNumber (oget location "y")
  let lng := readNumber (oget location "x")
  match lat, lng with
  | some la, some lo => some (la, lo)
  | _, _ => none

def geocodeAddress (address : String) (response : GeoFetch) : JsOutcome (Option (ℚ × ℚ)) :=
  if jsTrim address = "" then JsOutcome.value none
  else
    match response with
    | GeoFetch.reject => JsOutcome.thrown
    | GeoFetch.notOk => JsOutcome.value none
    | GeoFetch.badJson => JsOutcome.thrown
    | GeoFetch.okBody body => JsOutcome.value (geocodeParse body)

/-- Source `reverseGeocode`, parametrised like `geocodeAddress`; the
coordinates only feed the request URL.  Picks `LongLabel`, then
`Match_addr`, else `null` (`none`). -/
def reverseLabel (body : Json) : Option Json :=
  let addr := getKey body "address"
  match jsCoalesce (oget addr "LongLabel") (oget addr "Match_addr") with
  | none => none
  | some Json.null => none
  | some j => some j

def reverseGeocode (_lat _lng : ℚ) (response : GeoFetch) : JsOutcome (Option Json) :=
  match response with
  | GeoFetch.reject => JsOutcome.thrown
  | GeoFetch.notOk => JsOutcome.value none
  | GeoFetch.badJson => JsOutcome.thrown
  | GeoFetch.okBody body => JsOutcome.value (reverseLabel body)

/-! ### The mutable form state (`updateFormField` and reactions)

The `formData` React state is a `FormData | null`; its dynamic update
behaviour is untyped (`sectionObj[key] = value` on a spread copy), so it
is modelled on the JS-object representation: `FormJ` is the field list of
the form object. -/

/-- The JS object underlying a form state value. -/
def FormJ : Type := List (String × Json)

/-- JS `{ ...obj, [k]: v }`: overwrite in place if the key exists, else
append (JS object spread keeps insertion order). -/
def objSet : List (String × Json) → String → Json → List (String × Json)
  | [], k, v => [(k, v)]
  | (k', v') :: rest, k, v =>
      if k' = k then (k, v) :: rest else (k', v') :: objSet rest k v

/-- The source's `current && typeof current === 'object' ? { ...current } : {}`:
the section's fields if the section holds an object, else a fresh empty
object.  (An array-valued section would spread its index properties; no
form section ever holds an array.) -/
def sectionFieldsOf (p : FormJ) (sect : String) : List (String × Json) :=
  match lookupField p sect with
  | some (Json.obj fs) => fs
  | _ => []

/-- The update `{ ...prev, [section]: sectionObj }` performed by
`updateFormField` on a non-null form. -/
def updateFields (p : FormJ) (sect key value : String) : FormJ :=
  objSet p sect (Json.obj (objSet (sectionFieldsOf p sect) key (Json.str value)))

/-- Source `updateFormField`: a null form stays null; otherwise the keyed
section is copied (or replaced by an empty object if it was not an
object), the key is written, and the form is copied with the new
section. -/
def updateFormField (prev : Option FormJ) (sect key value : String) : Option FormJ :=
  match prev with
  | none => none
  | some p => some (updateFields p sect key value)

/-- `formData?.section?.key` on the JS representation. -/
def readFormPath (form : Option FormJ) (sect key : String) : Option Json :=
  oget (match form with
    | none => none
    | some fs => lookupField fs sect) key

/-- `String(formData?.section?.key ?? '')`. -/
def pathString (form : Option FormJ) (sect key : String) : String :=
  jsToString (jsDefault (readFormPath form sect key))

/-- The coordinate-clearing effect (source lines 531–541): when the
drop-off address trims to empty but a trimmed lat or lng remains, both
coordinates are overwritten with empty strings (two successive
`updateFormField` calls). -/
def clearOrphanDropoffCoords (form : Option FormJ) : Option FormJ :=
  if jsTrim (pathString form "dropoff_location" "address") ≠ "" then form
  else if jsTrim (pathString form "dropoff_location" "lat") = "" ∧
      jsTrim (pathString form "dropoff_location" "lng") = "" then form
  else
    updateFormField (updateFormField form "dropoff_location" "lat" "") "dropoff_location" "lng" ""

/-! ### Quote resolution (`handleSubmitDocuments`, manual-form branch) -/

/-- The `hasValidDropoffCoords` test: both trimmed raw strings non-empty,
both parse to finite numbers inside the latitude/longitude ranges, and not
the `(0,0)` sentinel. -/
def validDropoffCoords (latRaw lngRaw : String) : Bool :=
  let lt := jsTrim latRaw
  let lg := jsTrim lngRaw
  if lt = "" || lg = "" then false
  else
    match parseJsNumber lt, parseJsNumber lg with
    | some la, some lo =>
        decide (-90 ≤ la) && decide (la ≤ 90) && decide (-180 ≤ lo) && decide (lo ≤ 180) &&
        !(decide (la = 0) && decide (lo = 0))
    | _, _ => false

/-- The `official` lookup shared by both submission paths:
`getOfficialCityPriceForServiceArea(serviceArea) ??
getOfficialCityPriceForAddress(trim(address) + ' ' + trim(name), trimmed)`. -/
def officialPriceForForm (serviceArea address name : String) : Option (String × ℤ) :=
  match getOfficialCityPriceForServiceArea (jsTrim serviceArea) with
  | some r => some r
  | none => getOfficialCityPriceForAddress (jsTrim (jsTrim address ++ " " ++ jsTrim name))

/-- What the manual-form branch of `handleSubmitDocuments` does with the
quote: show a cost estimate, or surface the "needs service area" error. -/
inductive ResolveOutcome where
  | estimate (c : CostData)
  | needsServiceArea
  deriving DecidableEq, Repr

/-- Quote resolution of `handleSubmitDocuments` (source lines 1211–1260),
parametrised by the drop-off fields, the pickup coordinates held in
`dealershipCoords`, and the result `calculateCostAndDistance` would
return when called.  When coordinates are valid and an estimate arrives,
an official table match overrides its cost/city/status and keeps its
distance and duration; without a usable estimate an official match yields
a distance-0 official quote; with neither, the error state. -/
def resolveQuote (serviceArea address name latRaw lngRaw : String)
    (pickupCoords : Option (ℚ × ℚ)) (routeEstimate : Option CostData) : ResolveOutcome :=
  let official := officialPriceForForm serviceArea address name
  let computed : Option CostData :=
    if pickupCoords.isSome && validDropoffCoords latRaw lngRaw then routeEstimate
    else none
  match computed, official with
  | some est, some (city, price) =>
      ResolveOutcome.estimate
        { est with cost := price, pricingCity := some city, pricingStatus := some PricingStatus.official }
  | some est, none =>
      ResolveOutcome.estimate { est with pricingStatus := some PricingStatus.estimated }
  | none, some (city, price) =>
      ResolveOutcome.estimate
        { distance := 0, cost := price, pricingCity := some city, pricingStatus := some PricingStatus.official }
  | none, none => ResolveOutcome.needsServiceArea

/-! ### Receipt composition (`proceedWithDocumentSubmission`) -/

/-- The fulfillment-estimate string of the fallback receipt:
`String(costData?.pricingCity ?? '').toLowerCase().includes('montreal')`
selects the fast line. -/
def fulfillmentEstimate (costData : Option CostData) : String :=
  let city := lowerStr ((costData.bind CostData.pricingCity).getD "")
  if hasSub "montreal".data city.data then "As fast as 1–2 business days" else "3–8 business days"

/-- The lines of the locally composed fallback receipt (source lines
1417–1467), parametrised by the form state, cost data, the timestamp
string and the identity fields read from the token. -/
def fallbackReceiptLines (form : Option FormJ) (costData : Option CostData)
    (now userName userEmail : String) : List String :=
  let pickupName := jsTrim (pathString form "pickup_location" "name")
  let pickupPhone := jsTrim (pathString form "pickup_location" "phone")
  let pickupAddress := jsTrim (pathString form "pickup_location" "address")
  let dropName := jsTrim (pathString form "dropoff_location" "name")
  let dropPhone := jsTrim (pathString form "dropoff_location" "phone")
  let dropAddress := jsTrim (pathString form "dropoff_location" "address")
  let topKey := fun (k : String) => (match form with
    | none => none
    | some fs => lookupField fs k)
  let txnId := jsTrim (jsToString (jsDefault
    (jsCoalesce (readFormPath form "transaction" "transaction_id") (topKey "transaction_id"))))
  let releaseForm := jsTrim (jsToString (jsDefault
    (jsCoalesce (readFormPath form "transaction" "release_form_number") (topKey "release_form_number"))))
  let arrivalDate := jsTrim (jsToString (jsDefault
    (jsCoalesce (readFormPath form "transaction" "arrival_date") (topKey "arrival_date"))))
  let userLabel := jsTrim (if userName ≠ "" then userName
    else if userEmail ≠ "" then userEmail else "Account")
  let fulfillment := fulfillmentEstimate costData
  ["Receipt", "Created: " ++ now, "Account: " ++ userLabel, ""] ++
  (match costData with
    | some c =>
        ["Distance: " ++ toString c.distance ++ " km"] ++
        (if (c.pricingCity.getD "") ≠ "" ∧ c.pricingStatus = some PricingStatus.official then
          ["City: " ++ c.pricingCity.getD "",
           "Retail Price (before tax): $" ++ toString c.cost, "+ applicable tax"]
        else
          ["Retail Price (before tax): $" ++ toString c.cost, "+ applicable tax"]) ++
        ["Estimated fulfillment time: " ++ fulfillment, ""]
    | none => []) ++
  ["Pickup Location:"] ++
  (if pickupName ≠ "" then ["Name: " ++ pickupName] else []) ++
  (if pickupPhone ≠ "" then ["Phone: " ++ pickupPhone] else []) ++
  (if pickupAddress ≠ "" then ["Address: " ++ pickupAddress] else []) ++
  [""] ++
  ["Dropoff Location:"] ++
  (if dropName ≠ "" then ["Name: " ++ dropName] else []) ++
  (if dropPhone ≠ "" then ["Phone: " ++ dropPhone] else []) ++
  (if dropAddress ≠ "" then ["Address: " ++ dropAddress] else []) ++
  [""] ++
  ["Transaction:"] ++
  (if txnId ≠ "" then ["Transaction ID: " ++ txnId] else []) ++
  (if releaseForm ≠ "" then ["Release Form Number: " ++ releaseForm] else []) ++
  (if arrivalDate ≠ "" then ["Arrival Date: " ++ arrivalDate] else [])

/-- The fallback receipt text (`lines.join('\n')`). -/
def fallbackReceipt (form : Option FormJ) (costData : Option CostData)
    (now userName userEmail : String) : String :=
  String.intercalate "\n" (fallbackReceiptLines form costData now userName userEmail)

/-! ### Extraction normalisation (`initFormData`)

The `FormData` TS type, section by section; `initFormData` produces it
from an arbitrary extraction payload. -/

structure ServiceSection where
  service_type : String
  vehicle_type : String
  deriving DecidableEq, Repr

structure VehicleSection where
  vin : String
  year : String
  make : String
  model : String
  transmission : String
  odometer_km : String
  exterior_color : String
  interior_color : String
  has_accident : String
  deriving DecidableEq, Repr

structure SellingSection where
  name : String
  phone : String
  address : String
  deriving DecidableEq, Repr

structure BuyingSection where
  name : String
  phone : String
  contact_name : String
  deriving DecidableEq, Repr

structure PickupSection where
  name : String
  address : String
  phone : String
  deriving DecidableEq, Repr

structure DropoffSection where
  name : String
  phone : String
  address : String
  lat : String
  lng : String
  service_area : String
  deriving DecidableEq, Repr

structure TransactionSection where
  transaction_id : String
  release_form_number : String
  release_date : String
  arrival_date : String
  deriving DecidableEq, Repr

structure AuthorizationSection where
  released_by_name : String
  released_to_name : String
  deriving DecidableEq, Repr

structure FormData where
  service : ServiceSection
  vehicle : VehicleSection
  selling_dealership : SellingSection
  buying_dealership : BuyingSection
  pickup_location : PickupSection
  dropoff_location : DropoffSection
  transaction : TransactionSection
  authorization : AuthorizationSection
  dealer_notes : String
  deriving DecidableEq, Repr

/-- JS `a || b` on strings: `a` if non-empty (truthy), else `b`. -/
def jsOrStr (a b : String) : String :=
  if a ≠ "" then a else b

/-- The raw service-type text — candidate order exactly as in the source:
flat `service_type` first, flat `serviceType`, nested `service.*`, then
`transaction.*`. -/
def extractedServiceTypeRaw (output : Json) : String :=
  pickFirstString [
    getKey output "service_type",
    getKey output "serviceType",
    oget (recOf output "service") "service_type",
    oget (recOf output "service") "serviceType",
    oget (recOf output "transaction") "service_type",
    oget (recOf output "transaction") "serviceType"]

/-- `/deliver/.test(raw.toLowerCase())` selects delivery, else pickup. -/
def serviceTypeFromRaw (raw : String) : String :=
  if hasSub "deliver".data (lowerStr raw).data then "delivery_one_way" else "pickup_one_way"

/-- The candidate chain for the drop-off address text, in source order. -/
def extractedDropoffAddress (output : Json) : String :=
  pickFirstString [
    oget (recOf output "dropoff_location") "address",
    oget (recOf output "dropoff_location") "full_address",
    strIfString (getKey output "dropoff_location"),
    oget (recOf output "drop_off_location") "address",
    oget (recOf output "drop_off_location") "full_address",
    strIfString (getKey output "drop_off_location"),
    oget (recOf output "dropoff") "address",
    strIfString (getKey output "dropoff"),
    getKey output "dropoff_address",
    getKey output "dropoffAddress",
    oget (recOf output "delivery_location") "address",
    strIfString (getKey output "delivery_location"),
    oget (recOf output "deliveryLocation") "address",
    strIfString (getKey output "deliveryLocation"),
    oget (recOf output "destination") "address",
    strIfString (getKey output "destination"),
    getKey output "destination_address",
    getKey output "destinationAddress",
    getKey output "delivery_address",
    getKey output "deliveryAddress"]

/-- The candidate chain for the drop-off city, in source order. -/
def extractedDropoffCity (output : Json) : String :=
  pickFirstString [
    oget (recOf output "dropoff_location") "city",
    oget (recOf output "drop_off_location") "city",
    getKey output "dropoff_city",
    getKey output "dropoffCity",
    oget (recOf output "delivery_location") "city",
    oget (recOf output "deliveryLocation") "city",
    getKey output "destination_city",
    getKey output "destinationCity",
    getKey output "delivery_city",
    getKey output "deliveryCity"]

/-- The candidate chain for the drop-off contact name. -/
def extractedDropoffName (output : Json) : String :=
  pickFirstString [
    oget (recOf output "dropoff_location") "name",
    oget (recOf output "drop_off_location") "name",
    oget (recOf output "dropoff") "name",
    oget (recOf output "delivery_location") "name"]

/-- The candidate chain for the drop-off phone. -/
def extractedDropoffPhone (output : Json) : String :=
  pickFirstString [
    oget (recOf output "dropoff_location") "phone",
    oget (recOf output "drop_off_location") "phone",
    oget (recOf output "dropoff") "phone",
    oget (recOf output "delivery_location") "phone"]

/-- The `??` chain for the raw drop-off latitude value. -/
def extractedDropoffLat (output : Json) : Option Json :=
  jsCoalesce (oget (recOf output "dropoff_location") "lat")
    (jsCoalesce (oget (recOf output "drop_off_location") "lat")
      (jsCoalesce (oget (recOf output "dropoff") "lat")
        (jsCoalesce (getKey output "dropoff_lat")
          (jsCoalesce (getKey output "dropoffLat")
            (oget (recOf output "delivery_location") "lat")))))

/-- The `??` chain for the raw drop-off longitude value. -/
def extractedDropoffLng (output : Json) : Option Json :=
  jsCoalesce (oget (recOf output "dropoff_location") "lng")
    (jsCoalesce (oget (recOf output "drop_off_location") "lng")
      (jsCoalesce (oget (recOf output "dropoff") "lng")
        (jsCoalesce (getKey output "dropoff_lng")
          (jsCoalesce (getKey output "dropoffLng")
            (oget (recOf output "delivery_location") "lng")))))

/-- `Number.isFinite(readNumber(x)) ? String(readNumber(x)) : ''`. -/
def finiteNumString (v : Option Json) : String :=
  match readNumber v with
  | some q => numToString q
  | none => ""

/-- The final drop-off address: the address chain, else the city chain. -/
def dropoffAddressFinal (output : Json) : String :=
  jsOrStr (jsTrim (extractedDropoffAddress output)) (jsTrim (extractedDropoffCity output))

/-- The inferred service area: address-text match over
`"address name"`, else exact city-name lookup on the extracted city,
else empty. -/
def inferredServiceArea (output : Json) : String :=
  match getOfficialCityPriceForAddress
      (jsTrim (dropoffAddressFinal output ++ " " ++ jsTrim (extractedDropoffName output))) with
  | some (city, _) => city
  | none =>
      match getOfficialCityPriceForServiceArea (jsTrim (extractedDropoffCity output)) with
      | some (city, _) => city
      | none => ""

/-- The odometer text from the flat webhook field, stripped of everything
but digits and dots. -/
def newVehicleOdo (output : Json) : String :=
  let raw := readString (getKey output "vehicle_odometer")
  if raw ≠ "" then String.mk (raw.data.filter (fun c => c.isDigit || c = '.')) else ""

/-- The body of `initFormData` once the payload is known to be a record:
the returned `FormData` literal, leaf by leaf in source order. -/
def buildFormData (output : Json) : FormData :=
  let vehicleObj := recOf output "vehicle"
  let sellingObj := recOf output "selling_dealership"
  let buyingObj := recOf output "buying_dealership"
  let pickupObj := recOf output "pickup_location"
  let transactionObj := recOf output "transaction"
  let authObj := recOf output "authorization"
  { service := {
      service_type := serviceTypeFromRaw (extractedServiceTypeRaw output),
      vehicle_type := "standard" },
    vehicle := {
      vin := jsOrStr (readString (oget vehicleObj "vin")) (readString (getKey output "vin")),
      year := jsOrStr (readString (oget vehicleObj "year")) (readString (getKey output "vehicle_year")),
      make := jsOrStr (readString (oget vehicleObj "make")) (readString (getKey output "vehicle_make")),
      model := jsOrStr (readString (oget vehicleObj "model")) (readString (getKey output "vehicle_model")),
      transmission := jsOrStr (readString (oget vehicleObj "transmission"))
        (readString (getKey output "vehicle_transmission")),
      odometer_km := jsOrStr (readString (oget vehicleObj "odometer_km")) (newVehicleOdo output),
      exterior_color := jsOrStr (readString (oget vehicleObj "exterior_color"))
        (readString (getKey output "vehicle_color")),
      interior_color := readString (oget vehicleObj "interior_color"),
      has_accident := jsOrStr (readString (oget vehicleObj "has_accident"))
        (readString (getKey output "vehicle_cylinders")) },
    selling_dealership := {
      name := jsOrStr (readString (oget sellingObj "name"))
        (readString (getKey output "selling_dealership_name")),
      phone := jsOrStr (readString (oget sellingObj "phone"))
        (readString (getKey output "selling_dealership_phone")),
      address := readString (oget sellingObj "address") },
    buying_dealership := {
      name := jsOrStr (readString (oget buyingObj "name"))
        (readString (getKey output "buying_dealership_name")),
      phone := jsOrStr (readString (oget buyingObj "phone"))
        (readString (getKey output "buying_dealership_phone")),
      contact_name := readString (oget buyingObj "contact_name") },
    pickup_location := {
      name := jsOrStr (readString (oget pickupObj "name"))
        (readString (getKey output "pickup_location_name")),
      address := jsOrStr (readString (oget pickupObj "address"))
        (readString (getKey output "pickup_location_address")),
      phone := jsOrStr (readString (oget pickupObj "phone"))
        (readString (getKey output "pickup_location_phone")) },
    dropoff_location := {
      name := extractedDropoffName output,
      phone := extractedDropoffPhone output,
      address := dropoffAddressFinal output,
      lat := finiteNumString (extractedDropoffLat output),
      lng := finiteNumString (extractedDropoffLng output),
      service_area := inferredServiceArea output },
    transaction := {
      transaction_id := jsOrStr (readString (oget transactionObj "transaction_id"))
        (readString (getKey output "transaction_number")),
      release_form_number := readString (oget transactionObj "release_form_number"),
      release_date := jsOrStr (readString (oget transactionObj "release_date"))
        (readString (getKey output "release_date")),
      arrival_date := readString (oget transactionObj "arrival_date") },
    authorization := {
      released_by_name := readString (oget authObj "released_by_name"),
      released_to_name := readString (oget authObj "released_to_name") },
    dealer_notes := readString (getKey output "dealer_notes") }

/-- Source `initFormData`: `null` unless the payload is a truthy record
(an object or an array — the source's `isRecord` admits arrays), then the
assembled `FormData`.  `none` at the input is JS `undefined`. -/
def initFormData (output : Option Json) : Option FormData :=
  match output with
  | some (Json.obj fs) => some (buildFormData (Json.obj fs))
  | some (Json.arr es) => some (buildFormData (Json.arr es))
  | _ => none

/-- Records (the source's `isRecord`): objects and arrays. -/
def jsIsRecord : Json → Bool
  | Json.obj _ => true
  | Json.arr _ => true
  | _ => false

/-- The form every leaf of which is empty apart from the two service
defaults — what an empty payload normalises to. -/
def blankFormData : FormData :=
  { service := { service_type := "pickup_one_way", vehicle_type := "standard" },
    vehicle := {
      vin := "", year := "", make := "", model := "", transmission := "",
      odometer_km := "", exterior_color := "", interior_color := "", has_accident := "" },
    selling_dealership := { name := "", phone := "", address := "" },
    buying_dealership := { name := "", phone := "", contact_name := "" },
    pickup_location := { name := "", address := "", phone := "" },
    dropoff_location := {
      name := "", phone := "", address := "", lat := "", lng := "", service_area := "" },
    transaction := {
      transaction_id := "", release_form_number := "", release_date := "", arrival_date := "" },
    authorization := { released_by_name := "", released_to_name := "" },
    dealer_notes := "" }

/-! ## Helper lemmas -/

/-- `findRule` returns exactly the first table rule whose predicate
matches, together with the no-earlier-match evidence. -/
theorem findRule_eq_some_iff (rules : List CityPriceRule) (addr : String) (r : String × ℤ) :
    findRule rules addr = some r ↔
      ∃ pre rule post, rules = pre ++ rule :: post ∧
        (∀ q ∈ pre, q.matchAddr addr = false) ∧ rule.matchAddr addr = true ∧
        r = (rule.city, rule.total_price) := by
  induction rules with
  | nil =>
      constructor
      · intro hr
        exact Option.noConfusion hr
      · rintro ⟨pre, rule, post, heq, -⟩
        cases pre <;> exact List.noConfusion heq
  | cons a l ih =>
      constructor
      · intro hr
        by_cases h : a.matchAddr addr
        · have hr' : some (a.city, a.total_price) = some r := by
            simpa [findRule, h] using hr
          exact ⟨[], a, l, rfl, by simp, h, (Option.some_injective _ hr').symm⟩
        · have hr' : findRule l addr = some r := by
            simpa [findRule, h] using hr
          obtain ⟨pre, rule, post, heq, hpre, hrule, hre⟩ := ih.mp hr'
          refine ⟨a :: pre, rule, post, by rw [heq, List.cons_append], ?_, hrule, hre⟩
          intro q hq
          rcases List.mem_cons.mp hq with hqa | hqp
          · rw [hqa]
            exact Bool.eq_false_iff.mpr h
          · exact hpre q hqp
      · rintro ⟨pre, rule, post, heq, hpre, hrule, hre⟩
        cases pre with
        | nil =>
            rw [List.nil_append] at heq
            injection heq with h1 h2
            subst h1
            simp [findRule, hrule, hre]
        | cons p ps =>
            rw [List.cons_append] at heq
            injection heq with h1 h2
            have hp : p.matchAddr addr = false := hpre p (List.mem_cons_self p ps)
            have ha : a.matchAddr addr = false := by rw [h1]; exact hp
            have htl : findRule l addr = some r :=
              ih.mpr ⟨ps, rule, post, h2, fun q hq => hpre q (List.mem_cons_of_mem p hq), hrule, hre⟩
            simp [findRule, ha, htl]

/-- `getOfficialCityPriceForAddress` is `findRule` on the trimmed address
(also when the trimmed address is empty, where no rule matches anyway). -/
theorem getOfficialCityPriceForAddress_eq_findRule (address : String) :
    getOfficialCityPriceForAddress address = findRule OFFICIAL_CITY_TOTAL_PRICES (jsTrim address) := by
  unfold getOfficialCityPriceForAddress
  by_cases h : jsTrim address = ""
  · rw [h]
    simp only [if_true]
    have : findRule OFFICIAL_CITY_TOTAL_PRICES "" = none := by decide
    rw [this]
  · simp [h]

/-- `jsRound` is the floor of the shifted value, in `Int.floor` terms. -/
theorem jsRound_eq_floor (q : ℚ) : jsRound q = ⌊q + 1/2⌋ := by
  rw [jsRound, Rat.floor_def', ← Rat.floor_def]

/-- Reading back the key just written by `objSet`. -/
theorem lookupField_objSet_same (fs : List (String × Json)) (k : String) (v : Json) :
    lookupField (objSet fs k v) k = some v := by
  induction fs with
  | nil => simp [objSet, lookupField]
  | cons a rest ih =>
      obtain ⟨k', v'⟩ := a
      by_cases h : k' = k
      · simp [objSet, h, lookupField]
      · simp [objSet, h, lookupField, ih]

/-- `objSet` leaves every other key unchanged. -/
theorem lookupField_objSet_other (fs : List (String × Json)) (k k2 : String) (v : Json)
    (h : k2 ≠ k) : lookupField (objSet fs k v) k2 = lookupField fs k2 := by
  induction fs with
  | nil => simp [objSet, lookupField, h.symm]
  | cons a rest ih =>
      obtain ⟨k', v'⟩ := a
      by_cases hk : k' = k
      · subst hk
        simp only [objSet, if_pos rfl, lookupField]
        rw [if_neg h.symm, if_neg h.symm]
      · simp only [objSet, if_neg hk, lookupField]
        by_cases hk2 : k' = k2
        · simp [hk2]
        · simp [hk2, ih]

/-- `String(x)` of a string is itself (`jsToString` recurses through
nested arrays and so is compiled by well-founded recursion; this equation
recovers the string case for rewriting). -/
theorem jsToString_str (s : String) : jsToString (Json.str s) = s := by
  simp [jsToString]

/-- Reading a key out of the section-copy a form update starts from is
reading through the form: a non-object section exposes no keys. -/
theorem lookupField_sectionFieldsOf (p : FormJ) (sect k : String) :
    lookupField (sectionFieldsOf p sect) k = oget (lookupField p sect) k := by
  unfold sectionFieldsOf oget getKey
  cases h : lookupField p sect with
  | none => rfl
  | some j => cases j <;> rfl

/-! ## Claim theorems -/

/-- Claim C2: for every free-text address, `getOfficialCityPriceForAddress`
evaluates the city-price rules' predicates in table declaration order and
returns the first rule whose predicate matches (on the trimmed address);
when no rule matches — in particular when the trimmed address is empty —
it returns null; the function is total, so it never throws.  In
particular, "Trois-Rivières, Quebec" resolves to the Trois-Rivières rule
(price 335), which precedes the generic Montreal rule in the table. -/
theorem c2_addressMatcherFirstRule :
    (∀ address r, getOfficialCityPriceForAddress address = some r ↔
      ∃ pre rule post, OFFICIAL_CITY_TOTAL_PRICES = pre ++ rule :: post ∧
        (∀ q ∈ pre, q.matchAddr (jsTrim address) = false) ∧
        rule.matchAddr (jsTrim address) = true ∧
        r = (rule.city, rule.total_price)) ∧
    getOfficialCityPriceForAddress "Trois-Rivières, Quebec" =
      some ("Montreal (Trois-Rivières Region)", 335) := by
  constructor
  · intro address r
    rw [getOfficialCityPriceForAddress_eq_findRule]
    exact findRule_eq_some_iff OFFICIAL_CITY_TOTAL_PRICES (jsTrim address) r
  · decide

/-- Witness for C2 at the concrete address: the Trois-Rivières rule is the
first matching rule for "Trois-Rivières, Quebec". -/
theorem c2_addressMatcherFirstRule_witness :
    ∃ pre rule post, OFFICIAL_CITY_TOTAL_PRICES = pre ++ rule :: post ∧
      (∀ q ∈ pre, q.matchAddr (jsTrim "Trois-Rivières, Quebec") = false) ∧
      rule.matchAddr (jsTrim "Trois-Rivières, Quebec") = true ∧
      (("Montreal (Trois-Rivières Region)", (335 : ℤ)) = (rule.city, rule.total_price)) :=
  (c2_addressMatcherFirstRule.1 "Trois-Rivières, Quebec" _).mp c2_addressMatcherFirstRule.2

/-- Claim C6: normalisation of the empty object yields the form with every
string leaf empty, `service_type = 'pickup_one_way'` and
`vehicle_type = 'standard'`; a non-record input (null, undefined, or a
primitive) yields null; the embedded function is total, so applying it to
payloads with any fields absent cannot throw. -/
theorem c6_normalizeEmptyAndNonObject :
    initFormData (some (Json.obj [])) = some blankFormData ∧
    (∀ j : Json, jsIsRecord j = false → initFormData (some j) = none) ∧
    initFormData none = none := by
  refine ⟨by decide, ?_, rfl⟩
  intro j hj
  cases j <;> simp_all [jsIsRecord, initFormData]

/-- Witness for C6: a primitive payload normalises to null. -/
theorem c6_normalizeEmptyAndNonObject_witness :
    initFormData (some (Json.num 7)) = none :=
  c6_normalizeEmptyAndNonObject.2.1 (Json.num 7) rfl

/-- Claim C10: `updateFormField` on a non-null form writes exactly the
addressed key of the addressed section: reading the section back gives the
copied section object with the key set, every other top-level section is
unchanged, every other key of the section object is unchanged, and a null
form stays null. -/
theorem c10_updateFormFieldFrame (p : FormJ) (sect key value other k2 : String) :
    updateFormField (some p) sect key value = some (updateFields p sect key value) ∧
    lookupField (updateFields p sect key value) sect =
      some (Json.obj (objSet (sectionFieldsOf p sect) key (Json.str value))) ∧
    lookupField (objSet (sectionFieldsOf p sect) key (Json.str value)) key =
      some (Json.str value) ∧
    (other ≠ sect → lookupField (updateFields p sect key value) other = lookupField p other) ∧
    (k2 ≠ key → lookupField (objSet (sectionFieldsOf p sect) key (Json.str value)) k2 =
      lookupField (sectionFieldsOf p sect) k2) ∧
    updateFormField none sect key value = none := by
  refine ⟨rfl, ?_, ?_, ?_, ?_, rfl⟩
  · exact lookupField_objSet_same p sect _
  · exact lookupField_objSet_same (sectionFieldsOf p sect) key _
  · intro h
    exact lookupField_objSet_other p sect other _ h
  · intro h
    exact lookupField_objSet_other (sectionFieldsOf p sect) key k2 _ h

/-- A concrete two-section form for the C10 witness. -/
def c10Form : FormJ :=
  [("dropoff_location", Json.obj [("address", Json.str "A"), ("lat", Json.str "1")]),
   ("dealer_notes", Json.str "x")]

/-- Witness for C10 at a concrete form: writing `dropoff_location.lat`
leaves `dealer_notes` and `dropoff_location.address` unchanged and stores
the new value. -/
theorem c10_updateFormFieldFrame_witness :
    lookupField (updateFields c10Form "dropoff_location" "lat" "45") "dealer_notes" =
      lookupField c10Form "dealer_notes" ∧
    lookupField (objSet (sectionFieldsOf c10Form "dropoff_location") "lat" (Json.str "45"))
      "address" = lookupField (sectionFieldsOf c10Form "dropoff_location") "address" ∧
    lookupField (objSet (sectionFieldsOf c10Form "dropoff_location") "lat" (Json.str "45"))
      "lat" = some (Json.str "45") :=
  ⟨(c10_updateFormFieldFrame c10Form "dropoff_location" "lat" "45" "dealer_notes" "address").2.2.2.1
      (by decide),
   (c10_updateFormFieldFrame c10Form "dropoff_location" "lat" "45" "dealer_notes" "address").2.2.2.2.1
      (by decide),
   (c10_updateFormFieldFrame c10Form "dropoff_location" "lat" "45" "dealer_notes" "address").2.2.1⟩

/-- Claim C1: whenever the drop-off service area or the combined
address+name text matches the city-price table (the `official` lookup
succeeds), quote resolution produces an estimate with
`pricingStatus = 'official'` and cost exactly the matched rule's total
price; when a computed route estimate is also available (valid pickup and
drop-off coordinates and a non-null estimate) its distance and duration
are kept while the cost is overridden.  In particular, service area
"Kingston" with a computed 40 km estimate resolves to
`{distance: 40, cost: 235, pricingCity: 'Kingston', pricingStatus: 'official'}`. -/
theorem c1_officialPriceOverridesEstimate :
    (∀ serviceArea address name latRaw lngRaw pickup est city price,
      officialPriceForForm serviceArea address name = some (city, price) →
      ∃ c, resolveQuote serviceArea address name latRaw lngRaw pickup est =
          ResolveOutcome.estimate c ∧
        c.pricingStatus = some PricingStatus.official ∧ c.cost = price ∧
        c.pricingCity = some city ∧
        ((pickup.isSome && validDropoffCoords latRaw lngRaw) = true →
          ∀ e, est = some e → c.distance = e.distance ∧ c.duration = e.duration)) ∧
    resolveQuote "Kingston" "" "" "44.23" "-76.48" (some (4365/100, -7938/100))
        (some { distance := 40, cost := 150, duration := some 38 }) =
      ResolveOutcome.estimate {
        distance := 40, cost := 235, duration := some 38,
        pricingCity := some "Kingston", pricingStatus := some PricingStatus.official } := by
  constructor
  · intro serviceArea address name latRaw lngRaw pickup est city price hoff
    unfold resolveQuote
    rw [hoff]
    by_cases hg : (pickup.isSome && validDropoffCoords latRaw lngRaw) = true
    · rw [if_pos hg]
      cases est with
      | none =>
          exact ⟨_, rfl, rfl, rfl, rfl, fun _ e he => Option.noConfusion he⟩
      | some e =>
          refine ⟨_, rfl, rfl, rfl, rfl, fun _ e' he' => ?_⟩
          cases he'
          exact ⟨rfl, rfl⟩
    · rw [if_neg hg]
      exact ⟨_, rfl, rfl, rfl, rfl, fun hgt => absurd hgt hg⟩
  · have hoffK : officialPriceForForm "Kingston" "" "" = some ("Kingston", (235 : ℤ)) := by
      decide
    have hv0 : validDropoffCoords "44.23" "-76.48" =
        (decide ((-90 : ℚ) ≤ 44 + 23 / 10 ^ 2) && decide ((44 : ℚ) + 23 / 10 ^ 2 ≤ 90) &&
         decide ((-180 : ℚ) ≤ -(76 + 48 / 10 ^ 2)) && decide (-((76 : ℚ) + 48 / 10 ^ 2) ≤ 180) &&
         !(decide ((44 : ℚ) + 23 / 10 ^ 2 = 0) && decide (-((76 : ℚ) + 48 / 10 ^ 2) = 0))) := rfl
    have hv : validDropoffCoords "44.23" "-76.48" = true := by
      rw [hv0]
      norm_num
    unfold resolveQuote
    rw [hoffK]
    simp only [Option.isSome_some, Bool.true_and, hv, if_true]

/-- Witness for C1: the Kingston scenario instantiates the universal part,
with the official lookup discharged by evaluation. -/
theorem c1_officialPriceOverridesEstimate_witness :
    ∃ c, resolveQuote "Kingston" "" "" "44.23" "-76.48" (some (4365/100, -7938/100))
        (some { distance := 40, cost := 150, duration := some 38 }) =
      ResolveOutcome.estimate c ∧
      c.pricingStatus = some PricingStatus.official ∧ c.cost = 235 ∧
      c.pricingCity = some "Kingston" ∧
      ((Option.isSome (some ((4365 : ℚ)/100, (-7938 : ℚ)/100)) &&
          validDropoffCoords "44.23" "-76.48") = true →
        ∀ e, (some { distance := 40, cost := 150, duration := some 38 } : Option CostData) = some e →
          c.distance = e.distance ∧ c.duration = e.duration) :=
  c1_officialPriceOverridesEstimate.1 "Kingston" "" "" "44.23" "-76.48"
    (some (4365/100, -7938/100)) (some { distance := 40, cost := 150, duration := some 38 })
    "Kingston" 235 (by decide)

/-- Claim C3 counterexample: when the primary provider fails with a
non-success HTTP response while the secondary provider would return a
usable route, the secondary is never attempted and the haversine fallback
is used — refuting "on any primary failure the secondary is attempted
before the haversine fallback". -/
theorem c3_secondaryNotAttemptedOnHttpFailure :
    (calculateCostAndDistance RouteFetch.notOk (RouteFetch.route 40000 2400 none) 10).secondaryAttempted
      = false ∧
    (calculateCostAndDistance RouteFetch.notOk (RouteFetch.route 40000 2400 none) 10).result =
      some (haversineFallbackFromDistance 10) ∧
    (haversineFallbackFromDistance 10).route ≠ (providerEstimate 40000 2400 (some [(1, 2)])).route := by
  refine ⟨rfl, rfl, ?_⟩
  decide

/-- Claim C3 (amended): the secondary provider is attempted exactly when
the primary interaction throws; a usable primary route short-circuits; a
non-success or route-less primary response goes straight to the haversine
fallback; after a primary exception, a usable secondary route is used and
anything else from the secondary falls back to haversine. -/
theorem c3_providerChainOrder (p s : RouteFetch) (d : ℚ) :
    ((calculateCostAndDistance p s d).secondaryAttempted = true ↔ p = RouteFetch.reject) ∧
    (∀ dm ds g, p = RouteFetch.route dm ds g →
      (calculateCostAndDistance p s d).result = some (providerEstimate dm ds g)) ∧
    (p = RouteFetch.notOk ∨ p = RouteFetch.noRoute →
      (calculateCostAndDistance p s d).result = some (haversineFallbackFromDistance d)) ∧
    (∀ dm ds g, p = RouteFetch.reject → s = RouteFetch.route dm ds g →
      (calculateCostAndDistance p s d).result = some (providerEstimate dm ds g)) ∧
    (p = RouteFetch.reject → (∀ dm ds g, s ≠ RouteFetch.route dm ds g) →
      (calculateCostAndDistance p s d).result = some (haversineFallbackFromDistance d)) := by
  cases p <;> cases s <;> simp [calculateCostAndDistance]

/-- Witness for C3 (amended): after a primary exception a usable secondary
route is used; after a primary exception and a non-route secondary the
fallback fires. -/
theorem c3_providerChainOrder_witness :
    (calculateCostAndDistance RouteFetch.reject (RouteFetch.route 40000 2400 none) 5).result =
      some (providerEstimate 40000 2400 none) ∧
    (calculateCostAndDistance RouteFetch.reject RouteFetch.notOk 5).result =
      some (haversineFallbackFromDistance 5) :=
  ⟨(c3_providerChainOrder RouteFetch.reject (RouteFetch.route 40000 2400 none) 5).2.2.2.1
      40000 2400 none rfl rfl,
   (c3_providerChainOrder RouteFetch.reject RouteFetch.notOk 5).2.2.2.2 rfl
      (fun _ _ _ h => RouteFetch.noConfusion h)⟩

/-- Claim C4 counterexample: at haversine distance 100.3 km the fallback's
cost is `round(max(100.3 * 2.5, 150)) = 251`, while the claimed formula
`round(max(round(100.3) * 2.5, 150)) = 250` differs — the code feeds the
*unrounded* distance into the cost formula. -/
theorem c4_costUsesUnroundedDistance :
    (haversineFallbackFromDistance (1003/10)).cost = 251 ∧
    jsRound (max ((jsRound ((1003 : ℚ)/10) : ℚ) * (5/2)) 150) = 250 ∧
    (haversineFallbackFromDistance (1003/10)).cost ≠
      jsRound (max ((jsRound ((1003 : ℚ)/10) : ℚ) * (5/2)) 150) := by
  have h100 : jsRound ((1003 : ℚ)/10) = 100 := by
    rw [jsRound_eq_floor]
    norm_num
  have h1 : (haversineFallbackFromDistance (1003/10)).cost = 251 := by
    show jsRound (max ((1003 : ℚ)/10 * (5/2)) 150) = 251
    rw [max_eq_left (by norm_num : (150 : ℚ) ≤ 1003/10 * (5/2)), jsRound_eq_floor]
    norm_num
  have h2 : jsRound (max ((jsRound ((1003 : ℚ)/10) : ℚ) * (5/2)) 150) = 250 := by
    rw [h100]
    rw [show (((100 : ℤ) : ℚ)) = (100 : ℚ) by norm_num]
    rw [max_eq_left (by norm_num : (150 : ℚ) ≤ 100 * (5/2)), jsRound_eq_floor]
    norm_num
  refine ⟨h1, h2, ?_⟩
  rw [h1, h2]
  decide

/-- Claim C4 (amended): for every nonnegative haversine distance `d`, the
fallback estimate's cost is `round(max(d * 2.5, 150))` computed from the
unrounded distance (so it is always at least 150), its distance is
`round(d)` and its duration is `round(d / 60 * 60)` minutes; the claimed
form `round(max(round(d) * 2.5, 150))` coincides whenever `d` is an
integer. -/
theorem c4_fallbackCostFormula (d : ℚ) (_hd : 0 ≤ d) :
    (haversineFallbackFromDistance d).cost = jsRound (max (d * (5/2)) 150) ∧
    (haversineFallbackFromDistance d).distance = jsRound d ∧
    (haversineFallbackFromDistance d).duration = some (jsRound (d / 60 * 60)) ∧
    150 ≤ (haversineFallbackFromDistance d).cost ∧
    (d.den = 1 →
      (haversineFallbackFromDistance d).cost = jsRound (max ((jsRound d : ℚ) * (5/2)) 150)) := by
  refine ⟨rfl, rfl, rfl, ?_, ?_⟩
  · show (150 : ℤ) ≤ jsRound (max (d * (5/2)) 150)
    have h1 : (150 : ℚ) + 1/2 ≤ max (d * (5/2)) 150 + 1/2 := by
      have := le_max_right (d * (5/2)) (150 : ℚ)
      linarith
    have h2 : (150 : ℤ) = ⌊(150 : ℚ) + 1/2⌋ := by norm_num
    rw [jsRound_eq_floor, h2]
    exact Int.floor_le_floor h1
  · intro hden
    have hint : ((d.num : ℚ)) = d := by
      exact_mod_cast Rat.den_eq_one_iff d |>.mp hden
    have hjr : jsRound d = d.num := by
      rw [jsRound_eq_floor, ← hint, Int.floor_int_add]
      norm_num
    rw [hjr, hint]
    rfl

/-- Witness for C4 (amended) at `d = 6` km (the spec's own fallback
scenario): cost 150, and the integral-distance agreement applies. -/
theorem c4_fallbackCostFormula_witness :
    (haversineFallbackFromDistance 6).cost = jsRound (max ((6 : ℚ) * (5/2)) 150) ∧
    (haversineFallbackFromDistance 6).cost =
      jsRound (max ((jsRound (6 : ℚ) : ℚ) * (5/2)) 150) :=
  ⟨(c4_fallbackCostFormula 6 (by norm_num)).1,
   (c4_fallbackCostFormula 6 (by norm_num)).2.2.2.2 rfl⟩

/-- Claim C5 counterexample: a payload carrying both a flat
`service_type: "pickup"` and a nested `service.service_type: "delivery"`
normalises to `pickup_one_way` — the flat field wins, so the nested value
is *not* preferred (the nested text alone would have produced
`delivery_one_way`). -/
theorem c5_flatBeatsNestedServiceType :
    (initFormData (some (Json.obj [("service_type", Json.str "pickup"),
        ("service", Json.obj [("service_type", Json.str "delivery")])]))).map
      (fun f => f.service.service_type) = some "pickup_one_way" ∧
    serviceTypeFromRaw "delivery" = "delivery_one_way" ∧
    ("pickup_one_way" : String) ≠ "delivery_one_way" := by
  decide

/-- Claim C5 (amended): normalisation prefers the *flat* `service_type`
field: whenever the flat field holds a string with non-empty trim, the
resulting `service_type` is derived from that text, whatever the nested
`service.service_type` holds. -/
theorem c5_flatServiceTypePreferred (fs : List (String × Json)) (s : String)
    (h : jsTrim (readString (lookupField fs "service_type")) = s) (hs : s ≠ "") :
    ∃ f, initFormData (some (Json.obj fs)) = some f ∧
      f.service.service_type = serviceTypeFromRaw s := by
  refine ⟨buildFormData (Json.obj fs), rfl, ?_⟩
  show serviceTypeFromRaw (extractedServiceTypeRaw (Json.obj fs)) = serviceTypeFromRaw s
  congr 1
  unfold extractedServiceTypeRaw
  unfold pickFirstString
  simp only [getKey, h]
  rw [if_pos hs]

/-- Witness for C5 (amended): a flat `service_type: "delivery x"` decides
the result even with a nested `pickup`. -/
theorem c5_flatServiceTypePreferred_witness :
    ∃ f, initFormData (some (Json.obj [("service_type", Json.str "delivery x"),
        ("service", Json.obj [("service_type", Json.str "pickup")])])) = some f ∧
      f.service.service_type = serviceTypeFromRaw "delivery x" :=
  c5_flatServiceTypePreferred
    [("service_type", Json.str "delivery x"), ("service", Json.obj [("service_type", Json.str "pickup")])]
    "delivery x" (by decide) (by decide)

/-- Claim C7 counterexample: a rejected `fetch` (network failure)
propagates out of both geocoding functions as an exception — neither has a
`try`/`catch` — refuting "never propagate an exception to their
callers". -/
theorem c7_fetchRejectionPropagates :
    geocodeAddress "123 Main St, Kingston, ON" GeoFetch.reject = JsOutcome.thrown ∧
    reverseGeocode 45 (-73) GeoFetch.reject = JsOutcome.thrown := by
  constructor
  · show (if jsTrim "123 Main St, Kingston, ON" = "" then JsOutcome.value none
      else JsOutcome.thrown) = JsOutcome.thrown
    rfl
  · rfl

/-- Claim C7 (amended): the enumerated no-result cases do return null —
a non-success HTTP response yields `null` from both functions, and a
parsed body always yields a value (missing candidate/label or non-finite
coordinates give `null`, never a throw); but a rejected `fetch` or an
unparseable body propagates as an exception (for a non-empty address —
an empty trimmed address returns `null` without any request). -/
theorem c7_geocodeErrorModes (address : String) (lat lng : ℚ) (r : GeoFetch) :
    (geocodeAddress address GeoFetch.notOk = JsOutcome.value none) ∧
    (geocodeAddress address r = JsOutcome.thrown ↔
      jsTrim address ≠ "" ∧ (r = GeoFetch.reject ∨ r = GeoFetch.badJson)) ∧
    (reverseGeocode lat lng GeoFetch.notOk = JsOutcome.value none) ∧
    (reverseGeocode lat lng r = JsOutcome.thrown ↔
      (r = GeoFetch.reject ∨ r = GeoFetch.badJson)) ∧
    (∀ body, ∃ v, geocodeAddress address (GeoFetch.okBody body) = JsOutcome.value v) ∧
    (∀ body, ∃ v, reverseGeocode lat lng (GeoFetch.okBody body) = JsOutcome.value v) := by
  refine ⟨?_, ?_, ?_, ?_, ?_, ?_⟩
  · unfold geocodeAddress
    by_cases he : jsTrim address = "" <;> simp [he]
  · unfold geocodeAddress
    by_cases he : jsTrim address = ""
    · simp [he]
    · cases r <;> simp [he]
  · rfl
  · cases r <;> simp [reverseGeocode]
  · intro body
    unfold geocodeAddress
    by_cases he : jsTrim address = ""
    · exact ⟨none, by rw [if_pos he]⟩
    · exact ⟨geocodeParse body, by rw [if_neg he]⟩
  · intro body
    exact ⟨reverseLabel body, rfl⟩

/-- Witness for C7 (amended): the non-success-response cases at concrete
inputs. -/
theorem c7_geocodeErrorModes_witness :
    geocodeAddress "123 Main St" GeoFetch.notOk = JsOutcome.value none ∧
    reverseGeocode 45 (-73) GeoFetch.notOk = JsOutcome.value none :=
  ⟨(c7_geocodeErrorModes "123 Main St" 45 (-73) GeoFetch.notOk).1,
   (c7_geocodeErrorModes "123 Main St" 45 (-73) GeoFetch.notOk).2.2.1⟩

/-- A form whose drop-off address is empty while `lat` is whitespace-only
(a non-empty string that trims to empty). -/
def c8CexForm : FormJ :=
  [("dropoff_location", Json.obj
    [("address", Json.str ""), ("lat", Json.str " "), ("lng", Json.str "")])]

/-- Claim C8 counterexample: with an empty drop-off address and a
non-empty (whitespace-only) `lat`, the clearing reaction leaves the form
unchanged — `lat` remains `" "`, not the empty string — because the
reaction tests the *trimmed* coordinates.  So "empty address implies both
coordinates become empty strings" fails as stated. -/
theorem c8_whitespaceCoordsNotCleared :
    pathString (some c8CexForm) "dropoff_location" "address" = "" ∧
    pathString (some c8CexForm) "dropoff_location" "lat" = " " ∧
    (" " : String) ≠ "" ∧
    pathString (clearOrphanDropoffCoords (some c8CexForm)) "dropoff_location" "lat" = " " := by
  have e1 : pathString (some c8CexForm) "dropoff_location" "address" = "" := jsToString_str ""
  have e2 : pathString (some c8CexForm) "dropoff_location" "lat" = " " := jsToString_str " "
  have e3 : pathString (some c8CexForm) "dropoff_location" "lng" = "" := jsToString_str ""
  have hc : clearOrphanDropoffCoords (some c8CexForm) = some c8CexForm := by
    unfold clearOrphanDropoffCoords
    rw [e1, e2, e3]
    rw [if_neg (by decide), if_pos (by decide)]
  refine ⟨e1, e2, by decide, ?_⟩
  rw [hc]
  exact e2

/-- Claim C8 (amended): whenever the drop-off address trims to empty while
`lat` or `lng` trims to non-empty, the reaction clears both coordinates to
empty strings and leaves the address value unchanged, so "trimmed-empty
address implies empty coordinates" holds after it runs. -/
theorem c8_clearOrphanCoords (form : Option FormJ)
    (haddr : jsTrim (pathString form "dropoff_location" "address") = "")
    (hcoord : jsTrim (pathString form "dropoff_location" "lat") ≠ "" ∨
      jsTrim (pathString form "dropoff_location" "lng") ≠ "") :
    pathString (clearOrphanDropoffCoords form) "dropoff_location" "lat" = "" ∧
    pathString (clearOrphanDropoffCoords form) "dropoff_location" "lng" = "" ∧
    pathString (clearOrphanDropoffCoords form) "dropoff_location" "address" =
      pathString form "dropoff_location" "address" := by
  have hres : clearOrphanDropoffCoords form =
      updateFormField (updateFormField form "dropoff_location" "lat" "")
        "dropoff_location" "lng" "" := by
    unfold clearOrphanDropoffCoords
    rw [haddr]
    rw [if_neg (by simp)]
    rw [if_neg (fun h2 => hcoord.elim (fun hl => hl h2.1) (fun hg => hg h2.2))]
  rw [hres]
  cases form with
  | none => exact ⟨jsToString_str "", jsToString_str "", rfl⟩
  | some p =>
      have hp1 : lookupField (updateFields p "dropoff_location" "lat" "") "dropoff_location" =
          some (Json.obj (objSet (sectionFieldsOf p "dropoff_location") "lat" (Json.str ""))) :=
        lookupField_objSet_same p "dropoff_location" _
      have hsf1 : sectionFieldsOf (updateFields p "dropoff_location" "lat" "")
          "dropoff_location" =
          objSet (sectionFieldsOf p "dropoff_location") "lat" (Json.str "") := by
        unfold sectionFieldsOf
        rw [hp1]
        rfl
      have hp2 : lookupField
          (updateFields (updateFields p "dropoff_location" "lat" "") "dropoff_location" "lng" "")
          "dropoff_location" =
          some (Json.obj (objSet (objSet (sectionFieldsOf p "dropoff_location") "lat"
            (Json.str "")) "lng" (Json.str ""))) := by
        show lookupField (objSet (updateFields p "dropoff_location" "lat" "") "dropoff_location"
          (Json.obj (objSet (sectionFieldsOf (updateFields p "dropoff_location" "lat" "")
            "dropoff_location") "lng" (Json.str "")))) "dropoff_location" =
          some (Json.obj (objSet (objSet (sectionFieldsOf p "dropoff_location") "lat"
            (Json.str "")) "lng" (Json.str "")))
        rw [hsf1]
        exact lookupField_objSet_same _ _ _
      refine ⟨?_, ?_, ?_⟩
      · show jsToString (jsDefault (oget (lookupField
          (updateFields (updateFields p "dropoff_location" "lat" "") "dropoff_location" "lng" "")
          "dropoff_location") "lat")) = ""
        rw [hp2]
        show jsToString (jsDefault (lookupField (objSet (objSet
          (sectionFieldsOf p "dropoff_location") "lat" (Json.str "")) "lng" (Json.str ""))
          "lat")) = ""
        rw [lookupField_objSet_other _ "lng" "lat" _ (by decide), lookupField_objSet_same]
        exact jsToString_str ""
      · show jsToString (jsDefault (oget (lookupField
          (updateFields (updateFields p "dropoff_location" "lat" "") "dropoff_location" "lng" "")
          "dropoff_location") "lng")) = ""
        rw [hp2]
        show jsToString (jsDefault (lookupField (objSet (objSet
          (sectionFieldsOf p "dropoff_location") "lat" (Json.str "")) "lng" (Json.str ""))
          "lng")) = ""
        rw [lookupField_objSet_same]
        exact jsToString_str ""
      · show jsToString (jsDefault (oget (lookupField
          (updateFields (updateFields p "dropoff_location" "lat" "") "dropoff_location" "lng" "")
          "dropoff_location") "address")) = pathString (some p) "dropoff_location" "address"
        rw [hp2]
        show jsToString (jsDefault (lookupField (objSet (objSet
          (sectionFieldsOf p "dropoff_location") "lat" (Json.str "")) "lng" (Json.str ""))
          "address")) = pathString (some p) "dropoff_location" "address"
        rw [lookupField_objSet_other _ "lng" "address" _ (by decide),
          lookupField_objSet_other _ "lat" "address" _ (by decide),
          lookupField_sectionFieldsOf]
        rfl

/-- A form with an empty drop-off address and real coordinate strings. -/
def c8ValidForm : FormJ :=
  [("dropoff_location", Json.obj
    [("address", Json.str ""), ("lat", Json.str "45.5"), ("lng", Json.str "-73.5")])]

/-- Witness for C8 (amended) on a concrete form: both coordinates become
empty and the address stays empty. -/
theorem c8_clearOrphanCoords_witness :
    pathString (clearOrphanDropoffCoords (some c8ValidForm)) "dropoff_location" "lat" = "" ∧
    pathString (clearOrphanDropoffCoords (some c8ValidForm)) "dropoff_location" "lng" = "" ∧
    pathString (clearOrphanDropoffCoords (some c8ValidForm)) "dropoff_location" "address" =
      pathString (some c8ValidForm) "dropoff_location" "address" :=
  c8_clearOrphanCoords (some c8ValidForm)
    (by
      rw [show pathString (some c8ValidForm) "dropoff_location" "address" = "" from
        jsToString_str ""]
      rfl)
    (Or.inl (by
      rw [show pathString (some c8ValidForm) "dropoff_location" "lat" = "45.5" from
        jsToString_str "45.5"]
      decide))

/-- Claim C9 counterexample: with `pricingCity = "Montreal"` the composed
fulfillment estimate reads "As fast as 1–2 business days", which is not
the claimed exact string "1–2 business days"; the non-Montreal and
absent-cost cases do produce "3–8 business days". -/
theorem c9_fulfillmentTextDiffers :
    fulfillmentEstimate (some {
      distance := 0, cost := 285, pricingCity := some "Montreal",
      pricingStatus := some PricingStatus.official }) = "As fast as 1–2 business days" ∧
    ("As fast as 1–2 business days" : String) ≠ "1–2 business days" ∧
    fulfillmentEstimate none = "3–8 business days" := by
  refine ⟨rfl, by decide, rfl⟩

/-- Claim C9 (amended): the fallback receipt's fulfillment estimate is
"As fast as 1–2 business days" exactly when the cost estimate's
`pricingCity` lower-cases to a string containing "montreal" (absent city
included as empty), and "3–8 business days" otherwise; whenever cost data
is present the receipt's line list contains the corresponding
"Estimated fulfillment time" line. -/
theorem c9_fulfillmentLine (cd : Option CostData) (form : Option FormJ)
    (now userName userEmail : String) :
    (fulfillmentEstimate cd = "As fast as 1–2 business days" ↔
      hasSub "montreal".data (lowerStr ((cd.bind CostData.pricingCity).getD "")).data = true) ∧
    (fulfillmentEstimate cd = "3–8 business days" ↔
      hasSub "montreal".data (lowerStr ((cd.bind CostData.pricingCity).getD "")).data = false) ∧
    (∀ c, cd = some c →
      ("Estimated fulfillment time: " ++ fulfillmentEstimate cd) ∈
        fallbackReceiptLines form cd now userName userEmail) := by
  refine ⟨?_, ?_, ?_⟩
  · unfold fulfillmentEstimate
    by_cases h : hasSub "montreal".data
        (lowerStr ((cd.bind CostData.pricingCity).getD "")).data = true
    · simp [h]
    · simp [h]
  · unfold fulfillmentEstimate
    by_cases h : hasSub "montreal".data
        (lowerStr ((cd.bind CostData.pricingCity).getD "")).data = true
    · simp [h]
    · simp [h]
  · intro c hc
    subst hc
    unfold fallbackReceiptLines
    by_cases hcity : (c.pricingCity.getD "") ≠ "" ∧ c.pricingStatus = some PricingStatus.official
    · simp [hcity]
    · simp [hcity]

/-- The cost estimate used in the C9 witness. -/
def c9Cost : CostData :=
  { distance := 12, cost := 285, pricingCity := some "Montreal (Trois-Rivières Region)",
    pricingStatus := some PricingStatus.official }

/-- Witness for C9 (amended): a present cost estimate puts the fulfillment
line into the receipt. -/
theorem c9_fulfillmentLine_witness :
    ("Estimated fulfillment time: " ++ fulfillmentEstimate (some c9Cost)) ∈
      fallbackReceiptLines none (some c9Cost) "2026-10-12" "Jo" "jo@x.ca" :=
  (c9_fulfillmentLine (some c9Cost) none "2026-10-12" "Jo" "jo@x.ca").2.2 c9Cost rfl

end EasyDrive
